import Mathlib

/-!
Verification of the star-gift morphing particle engine.

The definitions below are shallow embeddings of the repository's code:
 * `App.tsx` — top-level application state, the smoothing loop
   (`lerpStep`, `tick`) and the gesture callback (`handleHandUpdate`);
 * `HandTracker` (`predictWebcam`) — the gesture signal mapper;
 * `geometry` helpers — `getRandomPointInSphere`, `getRandomPointInCone`,
   the foliage generator's jitter;
 * `ParticleScene.tsx` — the foliage vertex shader's blend formulas and
   the ornament instance update.

JavaScript numbers are modelled as exact rationals (ℚ) where the code is
pure rational arithmetic, and as real numbers (ℝ) where it uses
`Math.sqrt` / trigonometry.  `Math.random()` values are passed in
explicitly as parameters constrained to `[0, 1)`.
-/

/-- `TreeState` enum from `types.ts`. -/
inductive TreeState where
  | SCATTERED : TreeState
  | ASSEMBLED : TreeState
deriving DecidableEq

/-- The `App` component's state: React `useState` values plus the two
mutable refs `targetMorphRef` / `targetHeightRef` from `App.tsx`. -/
structure AppState where
  hasStarted : Bool
  treeState : TreeState
  morphProgress : ℚ
  handDetected : Bool
  handHeight : ℚ
  targetMorph : ℚ
  targetHeight : ℚ
deriving DecidableEq

/-- Initial `App` state: the `useState` initialisers in `App.tsx`
(`hasStarted = false`, `TreeState.ASSEMBLED`, `morphProgress = 0`,
`handDetected = false`, `handHeight = 0.5`) and the ref initialisers
(`targetMorphRef = 0`, `targetHeightRef = 0.5`). -/
def initialAppState : AppState :=
  { hasStarted := false
    treeState := TreeState.ASSEMBLED
    morphProgress := 0
    handDetected := false
    handHeight := 0.5
    targetMorph := 0
    targetHeight := 0.5 }

/-- `GiftOverlay`'s `onOpen` callback in `App.tsx`: `setHasStarted(true)`. -/
def startExperience (s : AppState) : AppState :=
  { s with hasStarted := true }

/-- One smoothing update from the `App.tsx` animation loop:
`diff = target - prev; if (Math.abs(diff) < 0.001) return target;
return prev + diff * k` (with `k = 0.08` for morph, `k = 0.05` for
height). -/
def lerpStep (k target prev : ℚ) : ℚ :=
  let diff := target - prev
  if |diff| < 0.001 then target else prev + diff * k

/-- One iteration of the `App.tsx` smoothing loop: morph moves toward
`targetMorph` with rate `0.08`, hand height toward `targetHeight` with
rate `0.05`. -/
def tick (s : AppState) : AppState :=
  { s with
    morphProgress := lerpStep 0.08 s.targetMorph s.morphProgress
    handHeight := lerpStep 0.05 s.targetHeight s.handHeight }

/-- `Math.min(Math.max(x, 0), 1)` from `handleHandUpdate`. -/
def clamp01 (x : ℚ) : ℚ := min (max x 0) 1

/-- The `handleHandUpdate` callback from `App.tsx`.  Aborts before the
experience has started; otherwise records the detected flag, and either
(detected) stores the clamped spread as the morph target, applies the
0.4/0.6 hysteresis to the tree state and stores the height target, or
(not detected) falls back to the manual morph target while leaving the
height target untouched. -/
def handleHandUpdate (s : AppState) (distance height : ℚ) (detected : Bool) :
    AppState :=
  if s.hasStarted then
    let s1 := { s with handDetected := detected }
    if detected then
      let morphVal := clamp01 distance
      let ts :=
        if morphVal > 0.6 then TreeState.SCATTERED
        else if morphVal < 0.4 then TreeState.ASSEMBLED
        else s1.treeState
      { s1 with targetMorph := morphVal, treeState := ts, targetHeight := height }
    else
      { s1 with
        targetMorph := if s1.treeState = TreeState.ASSEMBLED then 0 else 1 }
  else s

/-- The manual toggle button (`toggleState` in `App.tsx`): flips the
discrete state and pins the morph target to the matching endpoint. -/
def toggleState (s : AppState) : AppState :=
  let newState :=
    if s.treeState = TreeState.ASSEMBLED then TreeState.SCATTERED
    else TreeState.ASSEMBLED
  { s with
    treeState := newState
    targetMorph := if newState = TreeState.ASSEMBLED then 0 else 1 }

/-- State after starting the experience and then receiving a two-hand
reading with spread `1/2` and height `7/10`. -/
def twoHandsState : AppState :=
  handleHandUpdate (startExperience initialAppState) (1/2) (7/10) true

/-- State after `twoHandsState` receives a zero-hands reading
(`detected = false`; the tracker's default spread/height accompany it). -/
def handsLostState : AppState :=
  handleHandUpdate twoHandsState 0 (1/2) false

noncomputable section

/-- A 3-component vector (`THREE.Vector3` / GLSL `vec3`), over ℝ. -/
@[ext]
structure Vec3 where
  x : ℝ
  y : ℝ
  z : ℝ

/-- Componentwise vector addition (`Vector3.add` / GLSL `+`). -/
def vadd (a b : Vec3) : Vec3 := ⟨a.x + b.x, a.y + b.y, a.z + b.z⟩

/-- Scalar multiple of a vector (GLSL `s * v`). -/
def vscale (s : ℝ) (a : Vec3) : Vec3 := ⟨s * a.x, s * a.y, s * a.z⟩

/-- Euclidean length of a vector (`Vector3.length` / GLSL `length`). -/
def vnorm (a : Vec3) : ℝ := Real.sqrt (a.x ^ 2 + a.y ^ 2 + a.z ^ 2)

/-- GLSL `normalize`: the vector divided by its length (the zero vector
maps to zero under Lean's division-by-zero convention). -/
def vnormalize (a : Vec3) : Vec3 := vscale (vnorm a)⁻¹ a

/-- Horizontal (radial) distance of a point from the vertical axis. -/
def radial (a : Vec3) : ℝ := Real.sqrt (a.x ^ 2 + a.z ^ 2)

/-- GLSL / `THREE.MathUtils` `clamp` of a scalar into `[lo, hi]`. -/
def clampF (x lo hi : ℝ) : ℝ := min (max x lo) hi

/-- GLSL `mix(a, b, t) = a * (1 - t) + b * t`, componentwise. -/
def mixV (a b : Vec3) (t : ℝ) : Vec3 :=
  ⟨a.x * (1 - t) + b.x * t, a.y * (1 - t) + b.y * t, a.z * (1 - t) + b.z * t⟩

/-- `THREE.MathUtils.lerp(a, b, t) = a + (b - a) * t`; this is the
`lerp` named by the spec's blend formula. -/
def lerpScalar (a b t : ℝ) : ℝ := a + (b - a) * t

/-- The spec's `lerp(formationPosition, scatterPosition, t)`,
componentwise `lerpScalar`. -/
def lerpV (a b : Vec3) (t : ℝ) : Vec3 :=
  ⟨lerpScalar a.x b.x t, lerpScalar a.y b.y t, lerpScalar a.z b.z t⟩

/-- GLSL `smoothstep(e0, e1, x)`: clamp `(x - e0) / (e1 - e0)` to
`[0, 1]`, then apply the cubic Hermite polynomial. -/
def smoothstepG (e0 e1 x : ℝ) : ℝ :=
  let t := clampF ((x - e0) / (e1 - e0)) 0 1
  t * t * (3 - 2 * t)

/-- `easeInOutCubic` from the foliage vertex shader in
`ParticleScene.tsx`:
`x < 0.5 ? 4*x*x*x : 1 - pow(-2*x + 2, 3) / 2`. -/
def easeInOutCubic (x : ℝ) : ℝ :=
  if x < 0.5 then 4 * x * x * x else 1 - (-2 * x + 2) ^ 3 / 2

/-- The foliage shader's per-particle local progress:
`localProgress = smoothstep(0, 1, uMorph * 1.5 - aRandom * 0.5)` followed
by `localProgress = clamp(localProgress, 0, 1)`. -/
def foliageLocalProgress (m r : ℝ) : ℝ :=
  clampF (smoothstepG 0 1 (m * 1.5 - r * 0.5)) 0 1

/-- The foliage vertex shader's rendered particle position for morph `m`,
random phase `r` and time `t`:
`currentPos = mix(aTreePos, aScatterPos, easeInOutCubic(localProgress))`
plus the breathing offset
`normalize(currentPos) * sin(uTime * 1.5 + aRandom * 10.0) * 0.05 * (1 - localProgress)`. -/
def foliageVertexPosition (m r t : ℝ) (aTreePos aScatterPos : Vec3) : Vec3 :=
  let localProgress := foliageLocalProgress m r
  let currentPos := mixV aTreePos aScatterPos (easeInOutCubic localProgress)
  let breathe := Real.sin (t * 1.5 + r * 10.0) * 0.05 * (1 - localProgress)
  vadd currentPos (vscale breathe (vnormalize currentPos))

/-- The ornament instance easing from `Ornaments`/`updateMesh` in
`ParticleScene.tsx`:
`offset = item.id * 0.002`,
`localMorph = clamp(targetMorph * 1.2 - offset, 0, 1)`,
`smoothMorph = localMorph < 0.5 ? 4*l*l*l : 1 - pow(-2*l + 2, 3) / 2`. -/
def ornamentSmoothMorph (m id : ℝ) : ℝ :=
  let offset := id * 0.002
  let localMorph := clampF (m * 1.2 - offset) 0 1
  if localMorph < 0.5 then 4 * localMorph * localMorph * localMorph
  else 1 - (-2 * localMorph + 2) ^ 3 / 2

/-- `FOLIAGE` tree constants from `geometry` (`TREE_HEIGHT = 7.0`). -/
def treeHeight : ℝ := 7.0

/-- `TREE_RADIUS = 2.8` from `geometry`. -/
def treeRadius : ℝ := 2.8

/-- `SCATTER_RADIUS = 12.0` from `geometry`. -/
def scatterRadius : ℝ := 12.0

/-- `Math.cbrt` on the nonnegative reals (the code only applies it to
`Math.random()` values in `[0, 1)`). -/
def cbrt (x : ℝ) : ℝ := x ^ ((1 : ℝ) / 3)

/-- `getRandomPointInSphere` from `geometry`, with the three
`Math.random()` draws passed in as `u, v, w`:
`theta = 2π u`, `phi = acos(2v - 1)`, `r = cbrt(w) * radius`, point
`(r sinφ cosθ, r sinφ sinθ, r cosφ)`. -/
def getRandomPointInSphere (radius u v w : ℝ) : Vec3 :=
  let theta := 2 * Real.pi * u
  let phi := Real.arccos (2 * v - 1)
  let r := cbrt w * radius
  ⟨r * Real.sin phi * Real.cos theta,
   r * Real.sin phi * Real.sin theta,
   r * Real.cos phi⟩

/-- `getRandomPointInCone` from `geometry`, with the three
`Math.random()` draws passed in as `u1, u2, u3`:
`y = u1 * height`, `rAtY = (1 - y/height) * maxRadius` (linear taper),
`r = sqrt(u2) * rAtY`, `theta = u3 * π * 2`, point
`(r cosθ, y - height/2 - 0.5, r sinθ)`. -/
def getRandomPointInCone (height maxRadius u1 u2 u3 : ℝ) : Vec3 :=
  let y := u1 * height
  let rAtY := (1 - y / height) * maxRadius
  let r := Real.sqrt u2 * rAtY
  let theta := u3 * Real.pi * 2
  ⟨r * Real.cos theta, y - height / 2 - 0.5, r * Real.sin theta⟩

/-- One foliage particle's formation (tree) position from
`generateFoliage`: the cone sample plus the fluffiness jitter
`((j1-0.5)*0.3, (j2-0.5)*0.3, (j3-0.5)*0.3)`. -/
def foliageTreePosition (u1 u2 u3 j1 j2 j3 : ℝ) : Vec3 :=
  vadd (getRandomPointInCone treeHeight treeRadius u1 u2 u3)
    ⟨(j1 - 0.5) * 0.3, (j2 - 0.5) * 0.3, (j3 - 0.5) * 0.3⟩

/-- One foliage particle's scatter position from `generateFoliage`:
`getRandomPointInSphere(SCATTER_RADIUS)`. -/
def foliageScatterPosition (u v w : ℝ) : Vec3 :=
  getRandomPointInSphere scatterRadius u v w

/-- The cone's maximum radius at world height `y`, obtained by solving
the source's linear taper `rAtY = (1 - y/height) * maxRadius` at the
world coordinate `y - height/2 - 0.5` of the sampled point. -/
def coneMaxRadiusAt (y : ℝ) : ℝ :=
  (1 - (y + treeHeight / 2 + 0.5) / treeHeight) * treeRadius

/-- A MediaPipe hand landmark's normalized image coordinates (only `x`
and `y` are read by `predictWebcam`). -/
structure Landmark where
  x : ℝ
  y : ℝ

/-- A detected hand: 21 landmarks indexed as in MediaPipe (`4` = thumb
tip, `8` = index fingertip, `20` = pinky tip). -/
def Hand : Type := Fin 21 → Landmark

/-- Euclidean distance between two landmarks, as computed in
`predictWebcam`: `sqrt(dx*dx + dy*dy)`. -/
def lmDist (a b : Landmark) : ℝ :=
  Real.sqrt ((a.x - b.x) ^ 2 + (a.y - b.y) ^ 2)

/-- The gesture-reading calculation of `predictWebcam` in the
`HandTracker` component: starting from the defaults
`distance = 0`, `height = 0.5`, `detected = false`, it fills in the
two-hand (index-tip distance, inverted average index-tip y) or one-hand
(2 × thumb-to-pinky distance, inverted index-tip y) measurements, then
clamps `distance` to `[0, 1.2]` and `height` to `[0, 1]` before
delivering `(distance, height, detected)` to `onHandUpdate`. -/
def predictReading (landmarks : List Hand) : ℝ × ℝ × Bool :=
  let detected : Bool := !landmarks.isEmpty
  let raw : ℝ × ℝ :=
    match landmarks with
    | [handA, handB] =>
      let a := handA 8
      let b := handB 8
      (Real.sqrt ((a.x - b.x) ^ 2 + (a.y - b.y) ^ 2), 1 - (a.y + b.y) / 2)
    | [hand] =>
      let thumb := hand 4
      let pinky := hand 20
      let index := hand 8
      (Real.sqrt ((thumb.x - pinky.x) ^ 2 + (thumb.y - pinky.y) ^ 2) * 2.0,
       1 - index.y)
    | _ => (0, 0.5)
  (clampF raw.1 0 1.2, clampF raw.2 0 1, detected)

end

/-- Claim C10: before `startExperience` has been invoked
(`hasStarted = false`), every incoming gesture reading is ignored
entirely: the whole application state is left unchanged, regardless of
the reading's contents. -/
theorem before_start_ignores_gesture (s : AppState) (d h : ℚ) (det : Bool)
    (hs : s.hasStarted = false) : handleHandUpdate s d h det = s := by
  unfold handleHandUpdate
  rw [hs]
  simp

/-- Witness for C10 at a concrete pre-start state and reading. -/
theorem before_start_ignores_gesture_witness :
    initialAppState.hasStarted = false ∧
      handleHandUpdate initialAppState 2 3 true = initialAppState :=
  ⟨rfl, before_start_ignores_gesture initialAppState 2 3 true rfl⟩

/-- Counterexample to claim C2: after the experience has started and a
detected reading has set the morph target to `1/2`, a zero-hands reading
does overwrite the morph target (the fallback pins it to `0` for the
Assembled discrete state), while the height target is indeed retained at
`7/10`. -/
theorem hands_lost_overwrites_morph_target :
    twoHandsState.targetMorph = 1/2 ∧
    handsLostState.targetMorph = 0 ∧
    handsLostState.targetMorph < twoHandsState.targetMorph ∧
    handsLostState.targetHeight = 7/10 := by
  refine ⟨?_, ?_, ?_, ?_⟩ <;>
    norm_num [twoHandsState, handsLostState, handleHandUpdate, startExperience,
      initialAppState, clamp01, min_def, max_def]

/-- Claim C2 as amended: on a zero-hands reading after the experience has
started, the height target is retained (in particular it is not reset to
`0.5`), the discrete tree state is unchanged and the smoothed values are
untouched, but the morph target is overwritten with the discrete-mode
fallback (`0` if Assembled, `1` if Scattered) and the hand-detected flag
is cleared. -/
theorem hands_lost_keeps_height_target (s : AppState) (d h : ℚ)
    (hs : s.hasStarted = true) :
    (handleHandUpdate s d h false).targetHeight = s.targetHeight ∧
    (handleHandUpdate s d h false).targetMorph =
      (if s.treeState = TreeState.ASSEMBLED then 0 else 1) ∧
    (handleHandUpdate s d h false).treeState = s.treeState ∧
    (handleHandUpdate s d h false).handDetected = false ∧
    (handleHandUpdate s d h false).morphProgress = s.morphProgress ∧
    (handleHandUpdate s d h false).handHeight = s.handHeight := by
  unfold handleHandUpdate
  rw [hs]
  simp

/-- Witness for the amended C2 at a concrete post-start state. -/
theorem hands_lost_keeps_height_target_witness :
    twoHandsState.hasStarted = true ∧
      (handleHandUpdate twoHandsState 0 (1/2) false).targetHeight =
        twoHandsState.targetHeight :=
  ⟨by norm_num [twoHandsState, handleHandUpdate, startExperience, initialAppState,
      clamp01, min_def, max_def],
   (hands_lost_keeps_height_target twoHandsState 0 (1/2)
      (by norm_num [twoHandsState, handleHandUpdate, startExperience, initialAppState,
        clamp01, min_def, max_def])).1⟩

/-- Counterexample to claim C6: the discrete mode flips from Assembled to
Scattered on a gesture reading with clamped spread `1`, while the
smoothed morph value stays at `0`, strictly below `0.6`, throughout — the
flip is not gated on the smoothed value exceeding `0.6`. -/
theorem mode_flip_ignores_smoothed_morph :
    (startExperience initialAppState).treeState = TreeState.ASSEMBLED ∧
    (startExperience initialAppState).morphProgress < 0.6 ∧
    (handleHandUpdate (startExperience initialAppState) 1 (1/2) true).treeState
      = TreeState.SCATTERED ∧
    (handleHandUpdate (startExperience initialAppState) 1 (1/2) true).morphProgress
      < 0.6 := by
  refine ⟨?_, ?_, ?_, ?_⟩ <;>
    norm_num [handleHandUpdate, startExperience, initialAppState, clamp01,
      min_def, max_def]

/-- Claim C6 as amended: the 0.4/0.6 hysteresis is applied to the
incoming clamped gesture value (which becomes the morph target), not to
the smoothed morph value: the mode becomes Scattered only if that value
exceeds `0.6` (or it already was Scattered), becomes Assembled only if
that value is below `0.4` (or it already was Assembled), and any value in
`[0.4, 0.6]` leaves the mode unchanged. -/
theorem hysteresis_on_gesture_value (s : AppState) (d h : ℚ)
    (hs : s.hasStarted = true) :
    (handleHandUpdate s d h true).targetMorph = clamp01 d ∧
    ((handleHandUpdate s d h true).treeState = TreeState.SCATTERED →
      0.6 < clamp01 d ∨ s.treeState = TreeState.SCATTERED) ∧
    ((handleHandUpdate s d h true).treeState = TreeState.ASSEMBLED →
      clamp01 d < 0.4 ∨ s.treeState = TreeState.ASSEMBLED) ∧
    (0.4 ≤ clamp01 d → clamp01 d ≤ 0.6 →
      (handleHandUpdate s d h true).treeState = s.treeState) := by
  have hstep : handleHandUpdate s d h true =
      { s with
        handDetected := true
        targetMorph := clamp01 d
        treeState :=
          if clamp01 d > 0.6 then TreeState.SCATTERED
          else if clamp01 d < 0.4 then TreeState.ASSEMBLED
          else s.treeState
        targetHeight := h } := by
    unfold handleHandUpdate
    rw [hs]
    simp
  refine ⟨by rw [hstep], ?_, ?_, ?_⟩
  · intro hsc
    rw [hstep] at hsc
    by_cases h1 : clamp01 d > 0.6
    · exact Or.inl h1
    · by_cases h2 : clamp01 d < 0.4
      · simp only [if_neg h1, if_pos h2] at hsc
        simp at hsc
      · simp only [if_neg h1, if_neg h2] at hsc
        exact Or.inr hsc
  · intro hsc
    rw [hstep] at hsc
    by_cases h1 : clamp01 d > 0.6
    · simp only [if_pos h1] at hsc
      simp at hsc
    · by_cases h2 : clamp01 d < 0.4
      · exact Or.inl h2
      · simp only [if_neg h1, if_neg h2] at hsc
        exact Or.inr hsc
  · intro hge hle
    have h1 : ¬ clamp01 d > 0.6 := not_lt.mpr hle
    have h2 : ¬ clamp01 d < 0.4 := not_lt.mpr hge
    rw [hstep]
    simp only [if_neg h1, if_neg h2]

/-- Witness for the amended C6: a clamped spread of `1/2` lies in the
dead band and leaves the discrete mode unchanged. -/
theorem hysteresis_on_gesture_value_witness :
    (startExperience initialAppState).hasStarted = true ∧
    (0.4 ≤ clamp01 (1/2) ∧ clamp01 (1/2 : ℚ) ≤ 0.6) ∧
    (handleHandUpdate (startExperience initialAppState) (1/2) (1/2) true).treeState
      = (startExperience initialAppState).treeState :=
  ⟨rfl, ⟨by norm_num [clamp01], by norm_num [clamp01]⟩,
    (hysteresis_on_gesture_value (startExperience initialAppState) (1/2) (1/2)
      rfl).2.2.2 (by norm_num [clamp01]) (by norm_num [clamp01])⟩

/-- Helper for claim C1: as long as no snap has occurred (the remaining
gap `(1-0.08)^n` is still at least the `0.001` threshold), iterating the
morph smoothing step from `0` toward target `1` yields exactly the
closed-form exponential approach `1 - (1-0.08)^n`. -/
lemma morphIterClosedForm (n : ℕ) (h : (0.001 : ℚ) ≤ (1 - 0.08) ^ n) :
    (lerpStep 0.08 1)^[n] 0 = 1 - (1 - 0.08 : ℚ) ^ n := by
  induction n with
  | zero => norm_num
  | succ n ih =>
    have hp : (0 : ℚ) ≤ (1 - 0.08 : ℚ) ^ n := by positivity
    have hmono : ((1 - 0.08 : ℚ)) ^ (n + 1) ≤ (1 - 0.08 : ℚ) ^ n := by
      calc ((1 - 0.08 : ℚ)) ^ (n + 1) = (1 - 0.08) * (1 - 0.08) ^ n := by ring
        _ ≤ 1 * (1 - 0.08 : ℚ) ^ n := by nlinarith
        _ = (1 - 0.08 : ℚ) ^ n := one_mul _
    have hn : (0.001 : ℚ) ≤ (1 - 0.08) ^ n := le_trans h hmono
    rw [Function.iterate_succ_apply', ih hn]
    simp only [lerpStep]
    split_ifs with hsnap
    · exfalso
      rw [show (1 : ℚ) - (1 - (1 - 0.08) ^ n) = (1 - 0.08) ^ n by ring,
        abs_of_nonneg hp] at hsnap
      linarith
    · ring

/-- Claim C1: a smoothing tick snaps to the target exactly when the gap
is below `0.001`, otherwise moves by the fractional step (`0.08` for
morph, `0.05` for height); consequently, from current `0` with target
fixed at `1`, after `N` morph ticks (before the snap threshold) the
morph value is exactly `1 - (1-0.08)^N`. -/
theorem smoothing_tick_formula :
    (∀ target prev : ℚ, |target - prev| < 0.001 →
      lerpStep 0.08 target prev = target) ∧
    (∀ target prev : ℚ, ¬|target - prev| < 0.001 →
      lerpStep 0.08 target prev = prev + (target - prev) * 0.08) ∧
    (∀ target prev : ℚ, |target - prev| < 0.001 →
      lerpStep 0.05 target prev = target) ∧
    (∀ target prev : ℚ, ¬|target - prev| < 0.001 →
      lerpStep 0.05 target prev = prev + (target - prev) * 0.05) ∧
    (∀ N : ℕ, (0.001 : ℚ) ≤ (1 - 0.08) ^ N →
      (lerpStep 0.08 1)^[N] 0 = 1 - (1 - 0.08 : ℚ) ^ N) := by
  refine ⟨?_, ?_, ?_, ?_, morphIterClosedForm⟩ <;>
    · intro target prev h
      simp only [lerpStep]
      split_ifs
      all_goals rfl

/-- Witness for C1: each tick case and the closed form evaluated at
concrete inputs. -/
theorem smoothing_tick_formula_witness :
    (|1 - (0.9995 : ℚ)| < 0.001 ∧ lerpStep 0.08 1 0.9995 = 1) ∧
    (¬|1 - (0 : ℚ)| < 0.001 ∧ lerpStep 0.08 1 0 = 0 + (1 - 0) * 0.08) ∧
    (|1 - (0.9995 : ℚ)| < 0.001 ∧ lerpStep 0.05 1 0.9995 = 1) ∧
    (¬|1 - (0 : ℚ)| < 0.001 ∧ lerpStep 0.05 1 0 = 0 + (1 - 0) * 0.05) ∧
    ((0.001 : ℚ) ≤ (1 - 0.08) ^ 2 ∧
      (lerpStep 0.08 1)^[2] 0 = 1 - (1 - 0.08 : ℚ) ^ 2) :=
  ⟨⟨by rw [abs_lt]; norm_num, smoothing_tick_formula.1 1 0.9995 (by rw [abs_lt]; norm_num)⟩,
   ⟨by rw [abs_lt]; norm_num, smoothing_tick_formula.2.1 1 0 (by rw [abs_lt]; norm_num)⟩,
   ⟨by rw [abs_lt]; norm_num,
    smoothing_tick_formula.2.2.1 1 0.9995 (by rw [abs_lt]; norm_num)⟩,
   ⟨by rw [abs_lt]; norm_num,
    smoothing_tick_formula.2.2.2.1 1 0 (by rw [abs_lt]; norm_num)⟩,
   ⟨by norm_num, smoothing_tick_formula.2.2.2.2 2 (by norm_num)⟩⟩

/-- Helper for claim C9: one smoothing step shrinks the distance to the
target by at least the factor `1 - k`. -/
lemma lerpStep_dist_le (k target c : ℚ) (hk1 : k ≤ 1) :
    |target - lerpStep k target c| ≤ (1 - k) * |target - c| := by
  simp only [lerpStep]
  split_ifs with hsnap
  · simpa using mul_nonneg (by linarith) (abs_nonneg (target - c))
  · rw [show target - (c + (target - c) * k) = (1 - k) * (target - c) by ring,
      abs_mul, abs_of_nonneg (by linarith : (0 : ℚ) ≤ 1 - k)]

/-- Helper for claim C9: after `n` smoothing steps the distance to the
target has shrunk by at least `(1 - k)^n`. -/
lemma lerpIter_dist_le (k target c : ℚ) (hk1 : k ≤ 1) (n : ℕ) :
    |target - (lerpStep k target)^[n] c| ≤ (1 - k) ^ n * |target - c| := by
  induction n with
  | zero => simp
  | succ n ih =>
    rw [Function.iterate_succ_apply']
    calc |target - lerpStep k target ((lerpStep k target)^[n] c)|
        ≤ (1 - k) * |target - (lerpStep k target)^[n] c| :=
          lerpStep_dist_le k target _ hk1
      _ ≤ (1 - k) * ((1 - k) ^ n * |target - c|) :=
          mul_le_mul_of_nonneg_left ih (by linarith)
      _ = (1 - k) ^ (n + 1) * |target - c| := by ring

/-- Helper for claim C9: each iterate stays in the closed interval
spanned by the starting value and the target (no overshoot). -/
lemma lerpIter_between (k target c : ℚ) (hk0 : 0 ≤ k) (hk1 : k ≤ 1) (n : ℕ) :
    min c target ≤ (lerpStep k target)^[n] c ∧
      (lerpStep k target)^[n] c ≤ max c target := by
  induction n with
  | zero => exact ⟨min_le_left _ _, le_max_left _ _⟩
  | succ n ih =>
    rw [Function.iterate_succ_apply']
    obtain ⟨ihl, ihr⟩ := ih
    simp only [lerpStep]
    split_ifs with hsnap
    · exact ⟨min_le_right _ _, le_max_right _ _⟩
    · set v := (lerpStep k target)^[n] c with hv
      rcases le_total v target with hvt | htv
      · refine ⟨?_, ?_⟩
        · calc min c target ≤ v := ihl
            _ ≤ v + (target - v) * k := by
                nlinarith [mul_nonneg (sub_nonneg.mpr hvt) hk0]
        · calc v + (target - v) * k ≤ target := by
                nlinarith [mul_nonneg (sub_nonneg.mpr hvt) (sub_nonneg.mpr hk1)]
            _ ≤ max c target := le_max_right _ _
      · refine ⟨?_, ?_⟩
        · calc min c target ≤ target := min_le_right _ _
            _ ≤ v + (target - v) * k := by
                nlinarith [mul_nonneg (sub_nonneg.mpr htv) (sub_nonneg.mpr hk1)]
        · calc v + (target - v) * k ≤ v := by
                nlinarith [mul_nonneg (sub_nonneg.mpr htv) hk0]
            _ ≤ max c target := ihr

/-- Helper for claim C9: the distance to the target never increases from
one tick to the next. -/
lemma lerpIter_dist_mono (k target c : ℚ) (hk0 : 0 ≤ k) (hk1 : k ≤ 1) (n : ℕ) :
    |target - (lerpStep k target)^[n + 1] c| ≤
      |target - (lerpStep k target)^[n] c| := by
  rw [Function.iterate_succ_apply']
  calc |target - lerpStep k target ((lerpStep k target)^[n] c)|
      ≤ (1 - k) * |target - (lerpStep k target)^[n] c| :=
        lerpStep_dist_le k target _ hk1
    _ ≤ 1 * |target - (lerpStep k target)^[n] c| := by
        have h0 := abs_nonneg (target - (lerpStep k target)^[n] c)
        nlinarith [mul_nonneg hk0 h0]
    _ = _ := one_mul _

/-- Helper for claim C9: once the decayed bound drops below the snap
threshold, the very next tick snaps to the target exactly. -/
lemma lerpIter_reaches (k target c : ℚ) (hk1 : k ≤ 1) (N : ℕ)
    (hN : (1 - k) ^ N * |target - c| < 0.001) :
    (lerpStep k target)^[N + 1] c = target := by
  have hsmall : |target - (lerpStep k target)^[N] c| < 0.001 :=
    lt_of_le_of_lt (lerpIter_dist_le k target c hk1 N) hN
  rw [Function.iterate_succ_apply']
  simp only [lerpStep]
  split_ifs
  all_goals rfl

/-- Claim C9: for a fixed target and a starting value at most one unit
away, both smoothing instances approach the target monotonically (the
gap never grows and every iterate stays between the start and the
target, so there is no overshoot), and the value reaches the target
exactly within a bounded number of ticks (85 for the morph rate `0.08`,
136 for the height rate `0.05`). -/
theorem smoothing_monotone_convergence (target c : ℚ)
    (h : |target - c| ≤ 1) :
    (∀ n, |target - (lerpStep 0.08 target)^[n + 1] c| ≤
      |target - (lerpStep 0.08 target)^[n] c|) ∧
    (∀ n, min c target ≤ (lerpStep 0.08 target)^[n] c ∧
      (lerpStep 0.08 target)^[n] c ≤ max c target) ∧
    (lerpStep 0.08 target)^[85] c = target ∧
    (∀ n, |target - (lerpStep 0.05 target)^[n + 1] c| ≤
      |target - (lerpStep 0.05 target)^[n] c|) ∧
    (∀ n, min c target ≤ (lerpStep 0.05 target)^[n] c ∧
      (lerpStep 0.05 target)^[n] c ≤ max c target) ∧
    (lerpStep 0.05 target)^[136] c = target := by
  have h85 : (84 : ℕ) + 1 = 85 := rfl
  have h136 : (135 : ℕ) + 1 = 136 := rfl
  refine ⟨fun n => lerpIter_dist_mono 0.08 target c (by norm_num) (by norm_num) n,
    fun n => lerpIter_between 0.08 target c (by norm_num) (by norm_num) n,
    ?_,
    fun n => lerpIter_dist_mono 0.05 target c (by norm_num) (by norm_num) n,
    fun n => lerpIter_between 0.05 target c (by norm_num) (by norm_num) n,
    ?_⟩
  · have hb : ((1 : ℚ) - 0.08) ^ 84 < 0.001 := by norm_num
    have h84 : ((1 : ℚ) - 0.08) ^ 84 * |target - c| < 0.001 := by
      calc ((1 : ℚ) - 0.08) ^ 84 * |target - c|
          ≤ ((1 : ℚ) - 0.08) ^ 84 * 1 :=
            mul_le_mul_of_nonneg_left h (by positivity)
        _ < 0.001 := by rw [mul_one]; exact hb
    rw [← h85]
    exact lerpIter_reaches 0.08 target c (by norm_num) 84 h84
  · have hb : ((1 : ℚ) - 0.05) ^ 135 < 0.001 := by norm_num
    have h135 : ((1 : ℚ) - 0.05) ^ 135 * |target - c| < 0.001 := by
      calc ((1 : ℚ) - 0.05) ^ 135 * |target - c|
          ≤ ((1 : ℚ) - 0.05) ^ 135 * 1 :=
            mul_le_mul_of_nonneg_left h (by positivity)
        _ < 0.001 := by rw [mul_one]; exact hb
    rw [← h136]
    exact lerpIter_reaches 0.05 target c (by norm_num) 135 h135

/-- Witness for C9 with target `1` and start `0` (a single-step target
change from rest). -/
theorem smoothing_monotone_convergence_witness :
    |1 - (0 : ℚ)| ≤ 1 ∧
      (lerpStep 0.08 1)^[85] 0 = 1 ∧ (lerpStep 0.05 1)^[136] 0 = 1 :=
  ⟨by norm_num,
   (smoothing_monotone_convergence 1 0 (by norm_num)).2.2.1,
   (smoothing_monotone_convergence 1 0 (by norm_num)).2.2.2.2.2⟩

/-- Helper: a `clampF` result always lies in `[lo, hi]` when `lo ≤ hi`. -/
lemma clampF_between (x lo hi : ℝ) (h : lo ≤ hi) :
    lo ≤ clampF x lo hi ∧ clampF x lo hi ≤ hi :=
  ⟨le_min (le_max_right _ _) h, min_le_right _ _⟩

/-- Claim C3: the gesture mapper delivers, for two hands, the clamped
index-fingertip distance and clamped inverted average index-fingertip
height; for one hand, the clamped doubled thumb-to-pinky distance and
clamped inverted index-fingertip height; identical two-hand positions
give spread `0`; and every delivered reading has spread in `[0, 1.2]`
and height in `[0, 1]`. -/
theorem gesture_mapper_formulas :
    (∀ hA hB : Hand, predictReading [hA, hB] =
      (clampF (lmDist (hA 8) (hB 8)) 0 1.2,
       clampF (1 - ((hA 8).y + (hB 8).y) / 2) 0 1, true)) ∧
    (∀ hd : Hand, predictReading [hd] =
      (clampF (2 * lmDist (hd 4) (hd 20)) 0 1.2,
       clampF (1 - (hd 8).y) 0 1, true)) ∧
    (∀ hd : Hand, (predictReading [hd, hd]).1 = 0) ∧
    (∀ lands : List Hand,
      0 ≤ (predictReading lands).1 ∧ (predictReading lands).1 ≤ 1.2 ∧
      0 ≤ (predictReading lands).2.1 ∧ (predictReading lands).2.1 ≤ 1) := by
  refine ⟨fun hA hB => rfl, ?_, ?_, ?_⟩
  · intro hd
    have harg :
        Real.sqrt (((hd 4).x - (hd 20).x) ^ 2 + ((hd 4).y - (hd 20).y) ^ 2) *
          2.0 = 2 * lmDist (hd 4) (hd 20) := by
      rw [lmDist]
      ring
    simp only [predictReading]
    rw [harg]
    simp only [List.isEmpty_cons, Bool.not_false]
  · intro hd
    simp only [predictReading, sub_self]
    norm_num [clampF, Real.sqrt_zero, min_def, max_def]
  · intro lands
    refine ⟨?_, ?_, ?_, ?_⟩ <;> simp only [predictReading] <;>
      first
        | exact (clampF_between _ 0 1.2 (by norm_num)).1
        | exact (clampF_between _ 0 1.2 (by norm_num)).2
        | exact (clampF_between _ 0 1 (by norm_num)).1
        | exact (clampF_between _ 0 1 (by norm_num)).2

/-- Helper for claim C4: the GLSL `mix` blend coincides with the spec's
`lerp` blend. -/
lemma mixV_eq_lerpV (a b : Vec3) (t : ℝ) : mixV a b t = lerpV a b t := by
  simp only [mixV, lerpV, lerpScalar, Vec3.mk.injEq]
  refine ⟨by ring, by ring, by ring⟩

/-- Claim C4: the foliage shader's local progress is
`clamp(smoothstep(0, 1, m*1.5 - r*0.5), 0, 1)`, and the rendered
position is `lerp(formation, scatter, easeInOutCubic(localProgress))`
plus a breathing offset along the blended position's direction scaled by
`(1 - localProgress)`. -/
theorem foliage_blend_formula (m r t : ℝ) (aTreePos aScatterPos : Vec3) :
    foliageLocalProgress m r =
      clampF (smoothstepG 0 1 (m * 1.5 - r * 0.5)) 0 1 ∧
    foliageVertexPosition m r t aTreePos aScatterPos =
      vadd
        (lerpV aTreePos aScatterPos (easeInOutCubic (foliageLocalProgress m r)))
        (vscale
          (Real.sin (t * 1.5 + r * 10.0) * 0.05 *
            (1 - foliageLocalProgress m r))
          (vnormalize
            (lerpV aTreePos aScatterPos
              (easeInOutCubic (foliageLocalProgress m r))))) := by
  refine ⟨rfl, ?_⟩
  simp only [foliageVertexPosition]
  rw [mixV_eq_lerpV]

/-- Counterexample to claim C5: at morph `0.5`, with both stagger
offsets equal to `0` (ornament index `0` and foliage random phase `0`,
so the claimed substitution is the identity), the ornament progress is
`0.744` while the foliage progress is `0.9847412109375` — the two
per-element progress functions are not equal under the substitution (the
ornament path uses multiplier `1.2` and no smoothstep shaping). -/
theorem ornament_foliage_progress_differ :
    ornamentSmoothMorph 0.5 0 < easeInOutCubic (foliageLocalProgress 0.5 0) := by
  have hfl : foliageLocalProgress 0.5 0 = 0.84375 := by
    simp only [foliageLocalProgress, smoothstepG, clampF]
    norm_num [min_def, max_def]
  have ho : ornamentSmoothMorph 0.5 0 = 0.744 := by
    simp only [ornamentSmoothMorph, clampF]
    norm_num [min_def, max_def]
  rw [ho, hfl, easeInOutCubic, if_neg (by norm_num : ¬(0.84375 : ℝ) < 0.5)]
  norm_num

/-- Claim C5 as amended: the ornament per-instance progress applies the
same `easeInOutCubic` easing as the foliage shader, but to
`clamp(m * 1.2 - id * 0.002, 0, 1)` — a per-instance offset of the index
times `0.002`, a morph multiplier of `1.2` rather than the foliage's
`1.5`, and no smoothstep shaping. -/
theorem ornament_progress_formula (m id : ℝ) :
    ornamentSmoothMorph m id =
      easeInOutCubic (clampF (m * 1.2 - id * 0.002) 0 1) := by
  simp only [ornamentSmoothMorph, easeInOutCubic]

/-- Claim C8: for every random draw `w ∈ [0, 1)` (and any `u, v`), the
scatter position's Euclidean norm equals `cbrt(w) * SCATTER_RADIUS` —
the volumetric-uniform cube-root radius sampling — and in particular
never exceeds the scatter sphere radius. -/
theorem scatter_position_in_sphere (u v w : ℝ) (hw0 : 0 ≤ w) (hw1 : w < 1) :
    vnorm (foliageScatterPosition u v w) = cbrt w * scatterRadius ∧
    vnorm (foliageScatterPosition u v w) ≤ scatterRadius := by
  have hc0 : 0 ≤ cbrt w := Real.rpow_nonneg hw0 _
  have hr0 : (0 : ℝ) ≤ cbrt w * scatterRadius :=
    mul_nonneg hc0 (by norm_num [scatterRadius])
  have hkey : vnorm (foliageScatterPosition u v w) = cbrt w * scatterRadius := by
    simp only [foliageScatterPosition, getRandomPointInSphere, vnorm]
    set r := cbrt w * scatterRadius with hr
    set th := 2 * Real.pi * u with hth
    set ph := Real.arccos (2 * v - 1) with hph
    have hsq : (r * Real.sin ph * Real.cos th) ^ 2 +
        (r * Real.sin ph * Real.sin th) ^ 2 + (r * Real.cos ph) ^ 2 =
        r ^ 2 := by
      linear_combination (r ^ 2 * Real.sin ph ^ 2) * Real.sin_sq_add_cos_sq th +
        r ^ 2 * Real.sin_sq_add_cos_sq ph
    rw [hsq, Real.sqrt_sq hr0]
  refine ⟨hkey, ?_⟩
  rw [hkey]
  have hc1 : cbrt w ≤ 1 := Real.rpow_le_one hw0 hw1.le (by norm_num)
  calc cbrt w * scatterRadius ≤ 1 * scatterRadius := by
        have hs : (0 : ℝ) ≤ scatterRadius := by norm_num [scatterRadius]
        nlinarith
    _ = scatterRadius := one_mul _

/-- Witness for C8 at a concrete random draw. -/
theorem scatter_position_in_sphere_witness :
    ((0 : ℝ) ≤ 1/8 ∧ (1/8 : ℝ) < 1) ∧
    (vnorm (foliageScatterPosition 0.3 0.7 (1/8)) = cbrt (1/8) * scatterRadius ∧
     vnorm (foliageScatterPosition 0.3 0.7 (1/8)) ≤ scatterRadius) :=
  ⟨⟨by norm_num, by norm_num⟩,
   scatter_position_in_sphere 0.3 0.7 (1/8) (by norm_num) (by norm_num)⟩

/-- Counterexample to claim C7: a concrete admissible random draw
(`u1 = 0.9`, `u2 = 0.81`, `u3 = 0`, jitter draws `0.999, 0.5, 0.5`)
produces a foliage formation position whose radial distance `0.4017`
exceeds the cone's maximum radius `0.28` at that particle's height —
the fluffiness jitter pushes the point outside the cone. -/
theorem jitter_escapes_cone :
    coneMaxRadiusAt (foliageTreePosition 0.9 0.81 0 0.999 0.5 0.5).y <
      radial (foliageTreePosition 0.9 0.81 0 0.999 0.5 0.5) := by
  have h81 : Real.sqrt 0.81 = 0.9 := by
    rw [show (0.81 : ℝ) = 0.9 ^ 2 by norm_num]
    exact Real.sqrt_sq (by norm_num)
  have hpt : foliageTreePosition 0.9 0.81 0 0.999 0.5 0.5 =
      ⟨0.4017, 2.3, 0⟩ := by
    simp only [foliageTreePosition, getRandomPointInCone, vadd, treeHeight,
      treeRadius, zero_mul, Real.cos_zero, Real.sin_zero, Vec3.mk.injEq]
    refine ⟨?_, by norm_num, ?_⟩
    · rw [h81]
      norm_num
    · rw [h81]
      norm_num
  rw [hpt]
  have hrad : radial ⟨(0.4017 : ℝ), 2.3, 0⟩ = 0.4017 := by
    simp only [radial]
    rw [show ((0.4017 : ℝ)) ^ 2 + 0 ^ 2 = 0.4017 ^ 2 by ring,
      Real.sqrt_sq (by norm_num)]
  rw [hrad]
  simp only [coneMaxRadiusAt, treeHeight, treeRadius]
  norm_num

/-- Claim C7 as amended: the un-jittered cone sample's radial distance
never exceeds the cone's maximum radius at the sample's own height, for
every admissible random draw; the fluffiness jitter that
`generateFoliage` then adds moves each coordinate of the formation
position by at most `0.15` (and can therefore carry it outside the cone,
as the counterexample shows). -/
theorem cone_sample_in_cone (u1 u2 u3 j1 j2 j3 : ℝ)
    (h10 : 0 ≤ u1) (h11 : u1 < 1) (h20 : 0 ≤ u2) (h21 : u2 < 1)
    (h30 : 0 ≤ u3) (h31 : u3 < 1)
    (hj10 : 0 ≤ j1) (hj11 : j1 < 1) (hj20 : 0 ≤ j2) (hj21 : j2 < 1)
    (hj30 : 0 ≤ j3) (hj31 : j3 < 1) :
    radial (getRandomPointInCone treeHeight treeRadius u1 u2 u3) ≤
      coneMaxRadiusAt (getRandomPointInCone treeHeight treeRadius u1 u2 u3).y ∧
    |(foliageTreePosition u1 u2 u3 j1 j2 j3).x -
      (getRandomPointInCone treeHeight treeRadius u1 u2 u3).x| ≤ 0.15 ∧
    |(foliageTreePosition u1 u2 u3 j1 j2 j3).y -
      (getRandomPointInCone treeHeight treeRadius u1 u2 u3).y| ≤ 0.15 ∧
    |(foliageTreePosition u1 u2 u3 j1 j2 j3).z -
      (getRandomPointInCone treeHeight treeRadius u1 u2 u3).z| ≤ 0.15 := by
  have hAt : (1 - u1 * treeHeight / treeHeight) * treeRadius =
      (1 - u1) * treeRadius := by
    simp only [treeHeight]
    ring
  have hAt0 : (0 : ℝ) ≤ (1 - u1) * treeRadius := by
    simp only [treeRadius]
    nlinarith
  refine ⟨?_, ?_, ?_, ?_⟩
  · have hy : (getRandomPointInCone treeHeight treeRadius u1 u2 u3).y =
        u1 * treeHeight - treeHeight / 2 - 0.5 := rfl
    have hcm : coneMaxRadiusAt (u1 * treeHeight - treeHeight / 2 - 0.5) =
        (1 - u1) * treeRadius := by
      simp only [coneMaxRadiusAt, treeHeight]
      ring
    have hrad : radial (getRandomPointInCone treeHeight treeRadius u1 u2 u3) =
        Real.sqrt u2 * ((1 - u1) * treeRadius) := by
      simp only [getRandomPointInCone, radial]
      set r := Real.sqrt u2 * ((1 - u1 * treeHeight / treeHeight) * treeRadius)
        with hrdef
      have hsq : (r * Real.cos (u3 * Real.pi * 2)) ^ 2 +
          (r * Real.sin (u3 * Real.pi * 2)) ^ 2 = r ^ 2 := by
        linear_combination r ^ 2 * Real.sin_sq_add_cos_sq (u3 * Real.pi * 2)
      have hrpos : (0 : ℝ) ≤ r := by
        rw [hrdef, hAt]
        exact mul_nonneg (Real.sqrt_nonneg _) hAt0
      rw [hsq, Real.sqrt_sq hrpos, hrdef, hAt]
    rw [hy, hcm, hrad]
    exact mul_le_of_le_one_left hAt0 (Real.sqrt_le_one.mpr h21.le)
  · have hdx : (foliageTreePosition u1 u2 u3 j1 j2 j3).x -
        (getRandomPointInCone treeHeight treeRadius u1 u2 u3).x =
        (j1 - 0.5) * 0.3 := by
      simp only [foliageTreePosition, vadd]
      ring
    rw [hdx, abs_le]
    constructor <;> nlinarith
  · have hdy : (foliageTreePosition u1 u2 u3 j1 j2 j3).y -
        (getRandomPointInCone treeHeight treeRadius u1 u2 u3).y =
        (j2 - 0.5) * 0.3 := by
      simp only [foliageTreePosition, vadd]
      ring
    rw [hdy, abs_le]
    constructor <;> nlinarith
  · have hdz : (foliageTreePosition u1 u2 u3 j1 j2 j3).z -
        (getRandomPointInCone treeHeight treeRadius u1 u2 u3).z =
        (j3 - 0.5) * 0.3 := by
      simp only [foliageTreePosition, vadd]
      ring
    rw [hdz, abs_le]
    constructor <;> nlinarith

/-- Witness for the amended C7 at a concrete admissible random draw. -/
theorem cone_sample_in_cone_witness :
    ((0 : ℝ) ≤ 1/2 ∧ (1/2 : ℝ) < 1 ∧ (0 : ℝ) ≤ 1/4 ∧ (1/4 : ℝ) < 1) ∧
    radial (getRandomPointInCone treeHeight treeRadius (1/2) (1/4) (1/3)) ≤
      coneMaxRadiusAt
        (getRandomPointInCone treeHeight treeRadius (1/2) (1/4) (1/3)).y :=
  ⟨⟨by norm_num, by norm_num, by norm_num, by norm_num⟩,
   (cone_sample_in_cone (1/2) (1/4) (1/3) (1/5) (1/6) (1/7)
      (by norm_num) (by norm_num) (by norm_num) (by norm_num) (by norm_num)
      (by norm_num) (by norm_num) (by norm_num) (by norm_num) (by norm_num)
      (by norm_num) (by norm_num)).1⟩
